import Mathlib

/-!
Verification development for the Slack workflow-step / Salesforce case-creation
integration (`app.py`).

The Python program is shallowly embedded as follows.

* Python values that flow through the program (nested dicts, lists, strings,
  `None`, booleans) are modelled by the inductive type `PyVal`.
* A raised Python exception is modelled by `Except String` with the string
  being the text representation `str(e)` of the exception. A missing-key
  subscript (`d[k]` on a dict without key `k`) raises a `KeyError`, rendered
  here as `"KeyError: k"`; subscripting a non-dict raises a `TypeError`.
* External collaborators (the Salesforce client `sf.Case.create`, the Slack
  callbacks `complete`, `fail`, the constructors `Salesforce(...)`, `App(...)`
  and the socket-mode handler) are oracles: functions supplied as parameters
  that either return a value or raise. The framework acknowledgement
  callbacks `ack`, `configure` and `update` are recorded in traces.
* Each embedded function returns, besides its Python return value or raised
  exception, a trace: the list of payloads sent to the remote create call,
  the arguments of each callback invocation, and the log lines it emitted.
-/

set_option autoImplicit false

namespace SlackSalesforceCase

/-- A Python runtime value as used by `app.py`: strings, `None`, booleans,
dicts with string keys, and lists. -/
inductive PyVal where
  | str : String → PyVal
  | none : PyVal
  | bool : Bool → PyVal
  | dict : List (String × PyVal) → PyVal
  | list : List PyVal → PyVal
deriving Repr

/-- First value bound to `k` in an association list (Python dict lookup). -/
def assocFind (kvs : List (String × PyVal)) (k : String) : Option PyVal :=
  match kvs with
  | [] => Option.none
  | (k₀, v₀) :: rest => if k₀ = k then some v₀ else assocFind rest k

/-- The text representation of a Python `KeyError` raised for key `k`. -/
def keyErrorMsg (k : String) : String := "KeyError: " ++ k

/-- The text representation of the `TypeError` raised when subscripting a
non-dict value. -/
def typeErrorMsg : String := "TypeError: value is not subscriptable"

/-- Python subscription `v[k]`: returns the entry, raises `KeyError` when the
key is absent, raises `TypeError` when `v` is not a dict. -/
def PyVal.getItem (v : PyVal) (k : String) : Except String PyVal :=
  match v with
  | .dict kvs =>
    match assocFind kvs k with
    | some x => .ok x
    | Option.none => .error (keyErrorMsg k)
  | _ => .error typeErrorMsg

/-- Python `v.get(k)`: on a dict returns the entry or `None`; on a non-dict
raises (`AttributeError`-like, since only dicts have `.get`). -/
def PyVal.getOrNone (v : PyVal) (k : String) : Except String PyVal :=
  match v with
  | .dict kvs =>
    match assocFind kvs k with
    | some x => .ok x
    | Option.none => .ok PyVal.none
  | _ => .error "AttributeError: value has no attribute get"

mutual

/-- Rendering of a `PyVal` as Python string interpolation would produce it
(up to dict quoting, which no property depends on). -/
def PyVal.render : PyVal → String
  | .str s => s
  | .none => "None"
  | .bool b => if b then "True" else "False"
  | .dict kvs => "\x7b" ++ PyVal.renderPairs kvs ++ "\x7d"
  | .list xs => "[" ++ PyVal.renderItems xs ++ "]"

/-- Renders dict entries, comma separated. -/
def PyVal.renderPairs : List (String × PyVal) → String
  | [] => ""
  | [(k, v)] => k ++ ": " ++ PyVal.render v
  | (k, v) :: rest => k ++ ": " ++ PyVal.render v ++ ", " ++ PyVal.renderPairs rest

/-- Renders list items, comma separated. -/
def PyVal.renderItems : List PyVal → String
  | [] => ""
  | [v] => PyVal.render v
  | v :: rest => PyVal.render v ++ ", " ++ PyVal.renderItems rest

end

/-- The Salesforce client as the execute stage uses it: `sf.Case.create`
takes the payload dict and either returns the response object or raises. -/
def SfClient : Type := PyVal → Except String PyVal

/-- Result of one call of `create_salesforce_case`: the returned response or
the re-raised exception, the payloads sent to `sf.Case.create` (in order),
and the log lines emitted. -/
structure CreateOut where
  result : Except String PyVal
  calls : List PyVal
  log : List String
deriving Repr

/-- The payload dict that `create_salesforce_case` passes to
`sf.Case.create` (app.py lines 33-38). -/
def casePayload (subject description priority : PyVal) : PyVal :=
  PyVal.dict
    [("Subject", subject), ("Description", description),
     ("Priority", priority), ("Status", PyVal.str "New")]

/-- Embedding of `create_salesforce_case(sf, subject, description, priority)`
(app.py lines 31-43): sends the payload to `sf.Case.create`; on success logs
and returns the response unchanged; on an exception logs and re-raises. -/
def create_salesforce_case (sf : SfClient) (subject description priority : PyVal) :
    CreateOut :=
  let payload := casePayload subject description priority
  match sf payload with
  | .ok response =>
    ⟨.ok response, [payload], ["Case created successfully: " ++ PyVal.render response]⟩
  | .error e =>
    ⟨.error e, [payload], ["Failed to create Salesforce case: " ++ e]⟩

/-! ## Workflow step listeners (app.py lines 81-148) -/

/-- Trace of one run of the `edit_step` listener: the number of `ack()` calls
and the block payloads passed to `configure`. -/
structure EditOut where
  ackCalls : Nat
  configureCalls : List PyVal
deriving Repr

/-- The subject block of the `edit_step` form layout (app.py lines 84-93). -/
def subjectFormBlock : PyVal :=
  PyVal.dict
    [("type", .str "input"),
     ("block_id", .str "case_subject_block"),
     ("element", PyVal.dict
       [("type", .str "plain_text_input"),
        ("action_id", .str "case_subject_input"),
        ("placeholder", PyVal.dict
          [("type", .str "plain_text"), ("text", .str "Enter case subject")])]),
     ("label", PyVal.dict
       [("type", .str "plain_text"), ("text", .str "Case Subject")])]

/-- The description block of the `edit_step` form layout (app.py lines
94-104). -/
def descriptionFormBlock : PyVal :=
  PyVal.dict
    [("type", .str "input"),
     ("block_id", .str "case_description_block"),
     ("element", PyVal.dict
       [("type", .str "plain_text_input"),
        ("action_id", .str "case_description_input"),
        ("multiline", .bool true),
        ("placeholder", PyVal.dict
          [("type", .str "plain_text"), ("text", .str "Enter case description")])]),
     ("label", PyVal.dict
       [("type", .str "plain_text"), ("text", .str "Case Description")])]

/-- The priority block of the `edit_step` form layout (app.py lines
105-114). -/
def priorityFormBlock : PyVal :=
  PyVal.dict
    [("type", .str "input"),
     ("block_id", .str "case_priority_block"),
     ("element", PyVal.dict
       [("type", .str "plain_text_input"),
        ("action_id", .str "case_priority_input"),
        ("placeholder", PyVal.dict
          [("type", .str "plain_text"), ("text", .str "High/Medium/Low")])]),
     ("label", PyVal.dict
       [("type", .str "plain_text"), ("text", .str "Case Priority")])]

/-- The fixed three-block form layout passed to `configure` by `edit_step`
(app.py lines 83-115). -/
def caseFormBlocks : PyVal :=
  PyVal.list [subjectFormBlock, descriptionFormBlock, priorityFormBlock]

/-- Embedding of the `edit_step(ack, configure)` listener (app.py lines
81-115). The source body reads no invocation data at all: it acknowledges
once and passes the fixed `caseFormBlocks` layout to `configure`, so the
trace is a constant. -/
def edit_step : EditOut :=
  ⟨1, [caseFormBlocks]⟩

/-- Trace of one run of the `save_step` listener: the Python outcome
(uncaught exceptions escape to the host runtime), the number of `ack()`
calls, and the `(inputs, outputs)` argument pairs passed to `update`. -/
structure SaveOut where
  result : Except String Unit
  ackCalls : Nat
  updateCalls : List (PyVal × PyVal)
deriving Repr

/-- The nested extraction `values[blockId][actionId]["value"]` used by
`save_step` for each of its three fields. -/
def extractValue (values : PyVal) (blockId actionId : String) :
    Except String PyVal := do
  let block ← values.getItem blockId
  let element ← block.getItem actionId
  element.getItem "value"

/-- Embedding of `save_step(ack, view, update)` (app.py lines 117-127):
acknowledges, reads `view["state"]["values"]`, builds the three input
bindings from the fixed block and action identifiers (evaluated left to
right as the Python dict literal does), and calls
`update(inputs=inputs, outputs=[])`. Any missing key raises and no `update`
call happens. -/
def save_step (view : PyVal) : SaveOut :=
  match (do
      let state ← view.getItem "state"
      let values ← state.getItem "values"
      let subject ← extractValue values "case_subject_block" "case_subject_input"
      let description ← extractValue values "case_description_block" "case_description_input"
      let priority ← extractValue values "case_priority_block" "case_priority_input"
      pure (PyVal.dict
        [("case_subject", PyVal.dict [("value", subject)]),
         ("case_description", PyVal.dict [("value", description)]),
         ("case_priority", PyVal.dict [("value", priority)])]) :
      Except String PyVal) with
  | .ok inputs => ⟨.ok (), 1, [(inputs, PyVal.list [])]⟩
  | .error e => ⟨.error e, 1, []⟩

/-- Trace of the `try` body of `execute_step` (app.py lines 130-138), up to
and including the `complete(...)` call: the body outcome (an exception here
is what the `except` clause catches), the payloads sent to
`sf.Case.create`, the outputs dicts passed to `complete`, and the log. -/
structure BodyOut where
  result : Except String Unit
  sfCalls : List PyVal
  completeCalls : List PyVal
  log : List String
deriving Repr

/-- The `try` body of `execute_step`: read the three bindings from
`step["inputs"]`, call `create_salesforce_case`, then call
`complete(outputs=\x7b"case_id": response.get(id)\x7d)`. The `complete`
callback is an oracle that may itself raise. -/
def execBody (sf : SfClient) (step : PyVal)
    (complete : PyVal → Except String Unit) : BodyOut :=
  match (do
      let inputs ← step.getItem "inputs"
      let subject ← (do let b ← inputs.getItem "case_subject"; b.getItem "value")
      let description ← (do let b ← inputs.getItem "case_description"; b.getItem "value")
      let priority ← (do let b ← inputs.getItem "case_priority"; b.getItem "value")
      pure (subject, description, priority) : Except String (PyVal × PyVal × PyVal)) with
  | .error e => ⟨.error e, [], [], []⟩
  | .ok (subject, description, priority) =>
    let c := create_salesforce_case sf subject description priority
    match c.result with
    | .error e => ⟨.error e, c.calls, [], c.log⟩
    | .ok response =>
      match response.getOrNone "id" with
      | .error e => ⟨.error e, c.calls, [], c.log⟩
      | .ok caseId =>
        let outputs := PyVal.dict [("case_id", caseId)]
        match complete outputs with
        | .ok _ => ⟨.ok (), c.calls, [outputs], c.log⟩
        | .error e => ⟨.error e, c.calls, [outputs], c.log⟩

/-- Full trace of one run of the `execute_step` listener: the Python outcome
as seen by the caller (the Bolt runtime), the payloads sent to
`sf.Case.create`, the outputs dicts passed to `complete`, the error dicts
passed to `fail`, and the log. -/
structure ExecOut where
  result : Except String Unit
  sfCalls : List PyVal
  completeCalls : List PyVal
  failCalls : List PyVal
  log : List String
deriving Repr

/-- Embedding of `execute_step(step, complete, fail)` (app.py lines
129-140): runs the `try` body; on any exception `e` from the body, calls
`fail(error=\x7b"message": str(e)\x7d)`. The `fail` callback is an oracle
that may itself raise, in which case that exception leaves `execute_step`
uncaught. -/
def execute_step (sf : SfClient) (step : PyVal)
    (complete fail : PyVal → Except String Unit) : ExecOut :=
  let b := execBody sf step complete
  match b.result with
  | .ok _ => ⟨.ok (), b.sfCalls, b.completeCalls, [], b.log⟩
  | .error e =>
    let errObj := PyVal.dict [("message", PyVal.str e)]
    match fail errObj with
    | .ok _ => ⟨.ok (), b.sfCalls, b.completeCalls, [errObj], b.log⟩
    | .error e₂ => ⟨.error e₂, b.sfCalls, b.completeCalls, [errObj], b.log⟩

/-! ## Environment, self-test and process entrypoint (app.py lines 17-28,
46-71, 73-78, 155-168) -/

/-- The process environment: an association list of variable names to
values. -/
def Env : Type := List (String × String)

/-- `os.environ[k]`: raises `KeyError` when the variable is absent. -/
def envItem (env : Env) (k : String) : Except String String :=
  match env.find? (fun kv => kv.1 = k) with
  | some kv => .ok kv.2
  | Option.none => .error (keyErrorMsg k)

/-- `os.environ.get(k, d)`: the variable or the default. -/
def envGetD (env : Env) (k d : String) : String :=
  match env.find? (fun kv => kv.1 = k) with
  | some kv => kv.2
  | Option.none => d

/-- The `Salesforce(username=..., password=..., security_token=...)`
constructor as an oracle: returns a connected client or raises
(authentication failure). -/
def SfCtor : Type := String → String → String → Except String SfClient

/-- Result of `init_salesforce()`: the client or the re-raised exception,
plus the log lines emitted. -/
structure InitOut where
  result : Except String SfClient
  log : List String

/-- Embedding of `init_salesforce()` (app.py lines 17-28): reads the three
credentials from the environment and calls the `Salesforce` constructor, all
inside a `try`; on success logs and returns the client, on any exception
logs and re-raises. A missing credential raises `KeyError` inside the
`try`. -/
def init_salesforce (env : Env) (sfCtor : SfCtor) : InitOut :=
  match (do
      let username ← envItem env "SALESFORCE_USERNAME"
      let password ← envItem env "SALESFORCE_PASSWORD"
      let token ← envItem env "SALESFORCE_SECURITY_TOKEN"
      sfCtor username password token : Except String SfClient) with
  | .ok sf => ⟨.ok sf, ["Salesforce connection successful."]⟩
  | .error e => ⟨.error e, ["Error connecting to Salesforce: " ++ e]⟩

/-- Result of `run_test()`: the Python outcome (the `except` clause
re-raises), the payloads sent to `sf.Case.create`, and the log. -/
structure TestOut where
  result : Except String Unit
  sfCalls : List PyVal
  log : List String

/-- The fixed payload the self-test sends: `test_data` of app.py lines 50-54
mapped through `create_salesforce_case`. -/
def testPayload : PyVal :=
  casePayload (.str "Test Subject")
    (.str "This is a test description for the case.") (.str "High")

/-- Embedding of `run_test()` (app.py lines 46-71): connects, creates a case
from the literal `test_data`, reads `response.get(id)` and logs the created
case identifier; any exception in the `try` is logged as a test failure and
re-raised. -/
def run_test (env : Env) (sfCtor : SfCtor) : TestOut :=
  let ini := init_salesforce env sfCtor
  match ini.result with
  | .error e => ⟨.error e, [], ini.log ++ ["Test failed: " ++ e]⟩
  | .ok sf =>
    let c := create_salesforce_case sf (.str "Test Subject")
      (.str "This is a test description for the case.") (.str "High")
    match c.result with
    | .error e => ⟨.error e, c.calls, ini.log ++ c.log ++ ["Test failed: " ++ e]⟩
    | .ok response =>
      match response.getOrNone "id" with
      | .error e => ⟨.error e, c.calls, ini.log ++ c.log ++ ["Test failed: " ++ e]⟩
      | .ok caseId =>
        ⟨.ok (), c.calls,
         ini.log ++ c.log ++
           ["Test successful: Created Case ID=" ++ PyVal.render caseId,
            "Full response: " ++ PyVal.render response]⟩

/-- The external constructors and the handler used by the default
(interactive) mode: `App(token=...)`, the `Salesforce` constructor, and
`SocketModeHandler(app, app_token).start()`, each of which may raise. -/
structure MainOracles where
  appCtor : String → Except String Unit
  sfCtor : SfCtor
  handlerStart : String → Except String Unit

/-- Embedding of `init_slack_app()` (app.py lines 73-153): constructs the
Bolt `App` from `SLACK_BOT_TOKEN`, connects to Salesforce, and registers the
workflow step (the registration itself has no observable effect here); the
function propagates any exception. Returns the Salesforce client the step
listeners close over. -/
def init_slack_app (env : Env) (o : MainOracles) :
    Except String SfClient × List String :=
  match envItem env "SLACK_BOT_TOKEN" with
  | .error e => (.error e, [])
  | .ok botToken =>
    match o.appCtor botToken with
    | .error e => (.error e, [])
    | .ok _ =>
      let ini := init_salesforce env o.sfCtor
      (ini.result, ini.log)

/-- Trace of the `__main__` block: the Python outcome of the script (an
uncaught exception versus a normal return), whether the socket-mode handler
was started, the payloads sent to `sf.Case.create`, and the log. -/
structure MainOut where
  result : Except String Unit
  started : Bool
  sfCalls : List PyVal
  log : List String

/-- The `try` body of the default-mode branch of `__main__` (app.py lines
163-166), after the initial `"Starting Slack app..."` log line: construct
the Bolt app and the Salesforce client via `init_slack_app()`, read
`SLACK_APP_TOKEN`, and start the socket-mode handler. Returns the body
outcome — an exception here is what the `except` clause of the `__main__`
block catches — together with the log lines the body emitted. -/
def startSlackBody (env : Env) (o : MainOracles) :
    Except String Unit × List String :=
  match init_slack_app env o with
  | (.error e, initLog) => (.error e, initLog)
  | (.ok _sf, initLog) =>
    match envItem env "SLACK_APP_TOKEN" with
    | .error e => (.error e, initLog)
    | .ok appToken =>
      match o.handlerStart appToken with
      | .error e => (.error e, initLog)
      | .ok _ => (.ok (), initLog)

/-- Embedding of the `__main__` block (app.py lines 155-168): reads `MODE`
(default `"slack"`). In test mode runs `run_test()` with no handler around
it, so a test failure escapes the script. In default mode it logs
`"Starting Slack app..."` and runs `startSlackBody` inside a `try` whose
`except` clause only logs `"Failed to start app: ..."` and does not
re-raise; the handler is started (`started = true`) exactly when the body
ran to completion. -/
def mainEntry (env : Env) (o : MainOracles) : MainOut :=
  let mode := envGetD env "MODE" "slack"
  if mode = "test" then
    let t := run_test env o.sfCtor
    ⟨t.result, false, t.sfCalls, "Running in test mode" :: t.log⟩
  else
    let b := startSlackBody env o
    match b.1 with
    | .error e =>
      ⟨.ok (), false, [],
       ("Starting Slack app..." :: b.2) ++ ["Failed to start app: " ++ e]⟩
    | .ok _ =>
      ⟨.ok (), true, [], "Starting Slack app..." :: b.2⟩

/-! ## Host-runtime payload shapes and concrete oracles used in the
theorems below -/

/-- The `step` payload the Bolt runtime hands to `execute_step` after
Collecting bound the three inputs: `step["inputs"]` maps each binding name
to a dict with a `"value"` entry. -/
def mkStep (s d p : String) : PyVal :=
  PyVal.dict
    [("inputs", PyVal.dict
      [("case_subject", PyVal.dict [("value", .str s)]),
       ("case_description", PyVal.dict [("value", .str d)]),
       ("case_priority", PyVal.dict [("value", .str p)])])]

/-- One block entry of a submitted view state:
`blockId -> \x7bactionId -> \x7b"value" -> v\x7d\x7d`. -/
def mkBlockEntry (blockId actionId v : String) : String × PyVal :=
  (blockId, PyVal.dict [(actionId, PyVal.dict [("value", PyVal.str v)])])

/-- The `view` payload the Bolt runtime hands to `save_step` for a form
submission in which exactly the fields present as `some` were delivered
under their fixed block and action identifiers. -/
def mkViewState (s d p : Option String) : PyVal :=
  PyVal.dict
    [("state", PyVal.dict
      [("values", PyVal.dict
        ((match s with
          | some v => [mkBlockEntry "case_subject_block" "case_subject_input" v]
          | Option.none => []) ++
         (match d with
          | some v => [mkBlockEntry "case_description_block" "case_description_input" v]
          | Option.none => []) ++
         (match p with
          | some v => [mkBlockEntry "case_priority_block" "case_priority_input" v]
          | Option.none => [])))])]

/-- A remote create response carrying the identifier `"5003xyz"`. -/
def respWithId : PyVal := PyVal.dict [("id", PyVal.str "5003xyz")]

/-- A Salesforce client whose create call always succeeds with `r`. -/
def sfRespond (r : PyVal) : SfClient := fun _ => .ok r

/-- A Salesforce client whose create call always raises `e`. -/
def sfRaise (e : String) : SfClient := fun _ => .error e

/-- A callback that always returns normally. -/
def cbOk : PyVal → Except String Unit := fun _ => .ok ()

/-- A callback that always raises `e`. -/
def cbRaise (e : String) : PyVal → Except String Unit := fun _ => .error e

/-- A `Salesforce` constructor that succeeds and yields `sfRespond r`. -/
def ctorRespond (r : PyVal) : SfCtor := fun _ _ _ => .ok (sfRespond r)

/-- A `Salesforce` constructor that raises `e` (authentication failure). -/
def ctorRaise (e : String) : SfCtor := fun _ _ _ => .error e

/-- Benign stubs for the entrypoint collaborators. -/
def oraclesStub : MainOracles :=
  ⟨fun _ => .ok (), ctorRespond respWithId, fun _ => .ok ()⟩

/-- An environment carrying every credential the script reads. -/
def envFull : Env :=
  [("SALESFORCE_USERNAME", "user"), ("SALESFORCE_PASSWORD", "pw"),
   ("SALESFORCE_SECURITY_TOKEN", "tok"), ("SLACK_BOT_TOKEN", "xoxb"),
   ("SLACK_APP_TOKEN", "xapp")]

/-! ## Helper lemmas -/

/-- Unfolding of `create_salesforce_case` when the remote call succeeds. -/
theorem create_salesforce_case_ok (sf : SfClient) (s d p r : PyVal)
    (hsf : sf (casePayload s d p) = .ok r) :
    create_salesforce_case sf s d p =
      ⟨.ok r, [casePayload s d p],
       ["Case created successfully: " ++ PyVal.render r]⟩ := by
  simp only [create_salesforce_case]
  rw [hsf]

/-- Unfolding of `create_salesforce_case` when the remote call raises. -/
theorem create_salesforce_case_err (sf : SfClient) (s d p : PyVal) (e : String)
    (hsf : sf (casePayload s d p) = .error e) :
    create_salesforce_case sf s d p =
      ⟨.error e, [casePayload s d p],
       ["Failed to create Salesforce case: " ++ e]⟩ := by
  simp only [create_salesforce_case]
  rw [hsf]

/-- On a well-formed `step` payload the input extraction of the `try` body
succeeds, so `execBody` reduces to the remote call, the `response.get(id)`
read and the `complete` call. -/
theorem execBody_mkStep (sf : SfClient) (complete : PyVal → Except String Unit)
    (s d p : String) :
    execBody sf (mkStep s d p) complete =
      (let c := create_salesforce_case sf (.str s) (.str d) (.str p)
       match c.result with
       | .error e => ⟨.error e, c.calls, [], c.log⟩
       | .ok response =>
         match response.getOrNone "id" with
         | .error e => ⟨.error e, c.calls, [], c.log⟩
         | .ok caseId =>
           match complete (PyVal.dict [("case_id", caseId)]) with
           | .ok _ => ⟨.ok (), c.calls, [PyVal.dict [("case_id", caseId)]], c.log⟩
           | .error e => ⟨.error e, c.calls, [PyVal.dict [("case_id", caseId)]], c.log⟩) :=
  rfl

/-! ## Claims -/

/-- C1: for every triple of strings, `create_salesforce_case` sends the
remote create operation exactly one payload, namely
`\x7bSubject, Description, Priority, Status: "New"\x7d` with the three
values forwarded unchanged and unvalidated, and when the remote call
succeeds it returns the response unchanged. -/
theorem create_case_exact_payload_and_passthrough
    (sf : SfClient) (subject description priority : String) :
    (create_salesforce_case sf (.str subject) (.str description) (.str priority)).calls
      = [PyVal.dict
          [("Subject", .str subject), ("Description", .str description),
           ("Priority", .str priority), ("Status", .str "New")]]
    ∧ ∀ r, sf (PyVal.dict
          [("Subject", .str subject), ("Description", .str description),
           ("Priority", .str priority), ("Status", .str "New")]) = .ok r →
      (create_salesforce_case sf (.str subject) (.str description)
          (.str priority)).result = .ok r := by
  constructor
  · simp only [create_salesforce_case, casePayload]
    cases h : sf (PyVal.dict
        [("Subject", .str subject), ("Description", .str description),
         ("Priority", .str priority), ("Status", .str "New")]) <;> simp
  · intro r hr
    rw [create_salesforce_case_ok sf (.str subject) (.str description)
      (.str priority) r hr]

/-- Witness for C1 at a concrete client and triple: the empty subject and a
malformed priority are forwarded as-is and the response comes back
unchanged. -/
theorem create_case_exact_payload_and_passthrough_witness :
    (create_salesforce_case (sfRespond respWithId) (.str "") (.str "desc")
        (.str "Urgent!!")).result = .ok respWithId :=
  (create_case_exact_payload_and_passthrough (sfRespond respWithId) "" "desc"
    "Urgent!!").2 respWithId rfl

/-- C4: on a submission carrying all three fixed field identifiers,
`save_step` calls `update` exactly once, with the three input bindings
holding the literally submitted values and with an empty outputs list, and
raises nothing. -/
theorem save_step_writes_literal_bindings (s d p : String) :
    (save_step (mkViewState (some s) (some d) (some p))).updateCalls
      = [(PyVal.dict
          [("case_subject", PyVal.dict [("value", .str s)]),
           ("case_description", PyVal.dict [("value", .str d)]),
           ("case_priority", PyVal.dict [("value", .str p)])],
          PyVal.list [])]
    ∧ (save_step (mkViewState (some s) (some d) (some p))).result = .ok () :=
  ⟨rfl, rfl⟩

/-- C6: `edit_step` reads nothing from the invocation, so its trace is a
constant: one acknowledgement and exactly the fixed `caseFormBlocks` layout
passed to `configure` — three input blocks whose subject element is a
single-line `plain_text_input` (no `multiline` entry), whose description
element is multiline, and whose priority element is a plain text input with
the `High/Medium/Low` placeholder hint and no enumerated `options` and no
validation entry. -/
theorem edit_step_constant_three_field_form :
    edit_step = ⟨1, [caseFormBlocks]⟩
    ∧ caseFormBlocks = PyVal.list [subjectFormBlock, descriptionFormBlock, priorityFormBlock]
    ∧ (do let e ← subjectFormBlock.getItem "element"
          e.getItem "type") = .ok (.str "plain_text_input")
    ∧ (do let e ← subjectFormBlock.getItem "element"
          e.getOrNone "multiline") = .ok PyVal.none
    ∧ (do let e ← descriptionFormBlock.getItem "element"
          e.getItem "multiline") = .ok (.bool true)
    ∧ (do let e ← priorityFormBlock.getItem "element"
          e.getItem "type") = .ok (.str "plain_text_input")
    ∧ (do let e ← priorityFormBlock.getItem "element"
          let ph ← e.getItem "placeholder"
          ph.getItem "text") = .ok (.str "High/Medium/Low")
    ∧ (do let e ← priorityFormBlock.getItem "element"
          e.getOrNone "multiline") = .ok PyVal.none
    ∧ (∀ block, block ∈ [subjectFormBlock, descriptionFormBlock, priorityFormBlock] →
        (do let e ← block.getItem "element"
            e.getOrNone "options") = .ok PyVal.none
        ∧ (do let e ← block.getItem "element"
              e.getOrNone "validation") = .ok PyVal.none) := by
  refine ⟨rfl, rfl, rfl, rfl, rfl, rfl, rfl, rfl, ?_⟩
  intro block hb
  simp only [List.mem_cons, List.not_mem_nil, or_false] at hb
  rcases hb with h | h | h <;> subst h <;> exact ⟨rfl, rfl⟩

/-- C2: when the three input bindings are present and the CRM create call
succeeds with a response carrying identifier `i` (and the completion
callback returns normally, as the host runtime callbacks do), `execute_step`
calls `complete` exactly once with outputs `\x7bcase_id: i\x7d`, never calls
`fail`, and raises nothing. -/
theorem execute_success_completes_once
    (s d p : String) (sf : SfClient)
    (complete fail : PyVal → Except String Unit) (r i : PyVal)
    (hsf : sf (casePayload (.str s) (.str d) (.str p)) = .ok r)
    (hid : r.getOrNone "id" = .ok i)
    (hc : complete (PyVal.dict [("case_id", i)]) = .ok ()) :
    (execute_step sf (mkStep s d p) complete fail).completeCalls
      = [PyVal.dict [("case_id", i)]]
    ∧ (execute_step sf (mkStep s d p) complete fail).failCalls = []
    ∧ (execute_step sf (mkStep s d p) complete fail).result = .ok () := by
  have hcreate := create_salesforce_case_ok sf (.str s) (.str d) (.str p) r hsf
  simp only [execute_step, execBody_mkStep, hcreate, hid, hc]
  simp

/-- Witness for C2: client returning `\x7bid: "5003xyz"\x7d`, benign
callbacks. -/
theorem execute_success_completes_once_witness :
    (execute_step (sfRespond respWithId) (mkStep "s" "d" "High") cbOk cbOk).completeCalls
      = [PyVal.dict [("case_id", PyVal.str "5003xyz")]]
    ∧ (execute_step (sfRespond respWithId) (mkStep "s" "d" "High") cbOk cbOk).failCalls = []
    ∧ (execute_step (sfRespond respWithId) (mkStep "s" "d" "High") cbOk cbOk).result
      = .ok () :=
  execute_success_completes_once "s" "d" "High" (sfRespond respWithId) cbOk cbOk
    respWithId (PyVal.str "5003xyz") rfl rfl rfl

/-- C3: when the CRM create call raises `e` (and the failure callback
returns normally, as the host runtime callbacks do), `execute_step` calls
`fail` with `\x7bmessage: str(e)\x7d` — in this embedding errors are carried
as their `str(e)` text — and never calls `complete`. -/
theorem execute_error_fails_with_message
    (s d p : String) (sf : SfClient)
    (complete fail : PyVal → Except String Unit) (e : String)
    (hsf : sf (casePayload (.str s) (.str d) (.str p)) = .error e)
    (hf : fail (PyVal.dict [("message", PyVal.str e)]) = .ok ()) :
    (execute_step sf (mkStep s d p) complete fail).failCalls
      = [PyVal.dict [("message", PyVal.str e)]]
    ∧ (execute_step sf (mkStep s d p) complete fail).completeCalls = []
    ∧ (execute_step sf (mkStep s d p) complete fail).result = .ok () := by
  have hcreate := create_salesforce_case_err sf (.str s) (.str d) (.str p) e hsf
  simp only [execute_step, execBody_mkStep, hcreate, hf]
  simp

/-- Witness for C3: a client whose create call raises. -/
theorem execute_error_fails_with_message_witness :
    (execute_step (sfRaise "boom") (mkStep "s" "d" "High") cbOk cbOk).failCalls
      = [PyVal.dict [("message", PyVal.str "boom")]]
    ∧ (execute_step (sfRaise "boom") (mkStep "s" "d" "High") cbOk cbOk).completeCalls = []
    ∧ (execute_step (sfRaise "boom") (mkStep "s" "d" "High") cbOk cbOk).result = .ok () :=
  execute_error_fails_with_message "s" "d" "High" (sfRaise "boom") cbOk cbOk
    "boom" rfl rfl

/-- C9: when the CRM create call succeeds but the returned record has no
`id` entry, `execute_step` still calls `complete`, binding `case_id` to
`None`, and does not fail the invocation. -/
theorem execute_missing_id_completes_with_none
    (s d p : String) (sf : SfClient)
    (complete fail : PyVal → Except String Unit) (kvs : List (String × PyVal))
    (hsf : sf (casePayload (.str s) (.str d) (.str p)) = .ok (PyVal.dict kvs))
    (hid : assocFind kvs "id" = Option.none)
    (hc : complete (PyVal.dict [("case_id", PyVal.none)]) = .ok ()) :
    (execute_step sf (mkStep s d p) complete fail).completeCalls
      = [PyVal.dict [("case_id", PyVal.none)]]
    ∧ (execute_step sf (mkStep s d p) complete fail).failCalls = []
    ∧ (execute_step sf (mkStep s d p) complete fail).result = .ok () := by
  have hcreate := create_salesforce_case_ok sf (.str s) (.str d) (.str p)
    (PyVal.dict kvs) hsf
  have hget : (PyVal.dict kvs).getOrNone "id" = .ok PyVal.none := by
    simp [PyVal.getOrNone, hid]
  simp only [execute_step, execBody_mkStep, hcreate, hget, hc]
  simp

/-- Witness for C9: a client returning a record without an `id` entry. -/
theorem execute_missing_id_completes_with_none_witness :
    (execute_step (sfRespond (PyVal.dict [("success", PyVal.bool true)]))
        (mkStep "s" "d" "Low") cbOk cbOk).completeCalls
      = [PyVal.dict [("case_id", PyVal.none)]]
    ∧ (execute_step (sfRespond (PyVal.dict [("success", PyVal.bool true)]))
        (mkStep "s" "d" "Low") cbOk cbOk).failCalls = []
    ∧ (execute_step (sfRespond (PyVal.dict [("success", PyVal.bool true)]))
        (mkStep "s" "d" "Low") cbOk cbOk).result = .ok () :=
  execute_missing_id_completes_with_none "s" "d" "Low"
    (sfRespond (PyVal.dict [("success", PyVal.bool true)])) cbOk cbOk
    [("success", PyVal.bool true)] rfl rfl rfl

/-- C10 counterexample: `execute_step` CAN propagate an exception to its
caller — when the `fail` callback itself raises, the raise escapes the
listener, so the stage is not unconditionally non-propagating. -/
theorem execute_step_propagates_fail_callback_error :
    (execute_step (sfRaise "sf down") (mkStep "a" "b" "c") cbOk
        (cbRaise "fail raised")).result = .error "fail raised" :=
  rfl

/-- C10 (amended): provided the failure-marking callback itself returns
normally, `execute_step` never propagates an exception: every error raised
inside the `try` body before `complete` returns — a missing input binding,
a CRM error, a failing `response.get`, or an error raised by `complete`
itself — is caught by the single broad handler and converted into exactly
one `fail` call carrying `\x7bmessage: str(e)\x7d`, and when the body
succeeds, `fail` is not called. -/
theorem execute_step_no_propagation_when_fail_returns
    (sf : SfClient) (step : PyVal)
    (complete fail : PyVal → Except String Unit)
    (hfail : ∀ v, fail v = .ok ()) :
    (execute_step sf step complete fail).result = .ok ()
    ∧ (∀ e, (execBody sf step complete).result = .error e →
        (execute_step sf step complete fail).failCalls
          = [PyVal.dict [("message", PyVal.str e)]])
    ∧ ((execBody sf step complete).result = .ok () →
        (execute_step sf step complete fail).failCalls = []) := by
  cases hb : (execBody sf step complete).result with
  | ok u =>
    refine ⟨?_, ?_, ?_⟩ <;>
      simp only [execute_step, hb] <;> intros <;> simp_all
  | error e =>
    refine ⟨?_, ?_, ?_⟩ <;>
      simp only [execute_step, hb, hfail] <;> intros <;> simp_all

/-- Witness for C10 (amended): a missing input binding — an empty `step`
dict — is converted into a `fail` call and nothing escapes. -/
theorem execute_step_no_propagation_when_fail_returns_witness :
    (execute_step (sfRespond respWithId) (PyVal.dict []) cbOk cbOk).result = .ok ()
    ∧ (execute_step (sfRespond respWithId) (PyVal.dict []) cbOk cbOk).failCalls
      = [PyVal.dict [("message", PyVal.str (keyErrorMsg "inputs"))]] := by
  have h := execute_step_no_propagation_when_fail_returns (sfRespond respWithId)
    (PyVal.dict []) cbOk cbOk (fun _ => rfl)
  exact ⟨h.1, h.2.1 (keyErrorMsg "inputs") rfl⟩

/-- C5: on a submission missing at least one of the three fixed field
identifiers, `save_step` raises a missing-key error — which nothing in the
script catches, so it escapes to the host runtime — and never calls
`update`, so the invocation gets no bound inputs to execute with. -/
theorem save_step_missing_field_raises
    (s d p : Option String)
    (h : s = Option.none ∨ d = Option.none ∨ p = Option.none) :
    (save_step (mkViewState s d p)).updateCalls = []
    ∧ ∃ k, (save_step (mkViewState s d p)).result = .error (keyErrorMsg k) := by
  rcases s with _ | sv
  · rcases d with _ | dv <;> rcases p with _ | pv <;>
      exact ⟨rfl, "case_subject_block", rfl⟩
  · rcases d with _ | dv
    · rcases p with _ | pv <;> exact ⟨rfl, "case_description_block", rfl⟩
    · rcases p with _ | pv
      · exact ⟨rfl, "case_priority_block", rfl⟩
      · simp at h

/-- Witness for C5: subject field absent, the other two submitted. -/
theorem save_step_missing_field_raises_witness :
    (save_step (mkViewState Option.none (some "d") (some "High"))).updateCalls = []
    ∧ ∃ k, (save_step (mkViewState Option.none (some "d") (some "High"))).result
        = .error (keyErrorMsg k) :=
  save_step_missing_field_raises Option.none (some "d") (some "High") (Or.inl rfl)

/-- C7 counterexample: with no credentials in the environment and default
mode, the startup failure is logged — both log lines appear — but the
script returns normally: the `except` clause of the `__main__` block
(app.py lines 167-168) does not re-raise, so nothing propagates out of the
entrypoint. -/
theorem mainEntry_swallows_startup_error :
    (mainEntry [] oraclesStub).result = .ok ()
    ∧ (mainEntry [] oraclesStub).started = false
    ∧ (mainEntry [] oraclesStub).log
      = ["Starting Slack app...",
         "Failed to start app: " ++ keyErrorMsg "SLACK_BOT_TOKEN"] :=
  ⟨rfl, rfl, rfl⟩

/-- C7 (amended): in default mode the entrypoint always returns normally —
the `except` clause does not re-raise — and whenever the startup body
raises an error `e` (absent credential or login/session failure), the
event listener does not start and exactly that error's text is logged as
`Failed to start app: e`; the listener starts exactly when the startup
body raises nothing. -/
theorem mainEntry_default_mode_catches_startup_errors
    (env : Env) (o : MainOracles)
    (hmode : envGetD env "MODE" "slack" ≠ "test") :
    (mainEntry env o).result = .ok ()
    ∧ (∀ e, (startSlackBody env o).1 = .error e →
        (mainEntry env o).started = false
        ∧ ("Failed to start app: " ++ e) ∈ (mainEntry env o).log)
    ∧ ((startSlackBody env o).1 = .ok () →
        (mainEntry env o).started = true) := by
  cases hb : (startSlackBody env o).1 with
  | error e =>
    refine ⟨?_, ?_, ?_⟩
    · simp only [mainEntry]
      rw [if_neg hmode]
      simp [hb]
    · intro e₂ he₂
      injection he₂ with h
      subst h
      constructor
      · simp only [mainEntry]
        rw [if_neg hmode]
        simp [hb]
      · simp only [mainEntry]
        rw [if_neg hmode]
        simp [hb]
    · intro h0
      exact nomatch h0
  | ok u =>
    refine ⟨?_, ?_, ?_⟩
    · simp only [mainEntry]
      rw [if_neg hmode]
      simp [hb]
    · intro e he
      exact nomatch he
    · intro _
      simp only [mainEntry]
      rw [if_neg hmode]
      simp [hb]

/-- Witness for C7 (amended), at the empty environment and stub
collaborators: the missing `SLACK_BOT_TOKEN` aborts the body, the listener
does not start, that exact error is logged, and the script still returns
normally. -/
theorem mainEntry_default_mode_catches_startup_errors_witness :
    (mainEntry [] oraclesStub).result = .ok ()
    ∧ (mainEntry [] oraclesStub).started = false
    ∧ ("Failed to start app: " ++ keyErrorMsg "SLACK_BOT_TOKEN")
        ∈ (mainEntry [] oraclesStub).log := by
  have h := mainEntry_default_mode_catches_startup_errors [] oraclesStub (by decide)
  exact ⟨h.1, (h.2.1 (keyErrorMsg "SLACK_BOT_TOKEN") rfl).1,
    (h.2.1 (keyErrorMsg "SLACK_BOT_TOKEN") rfl).2⟩

/-- C8: whenever the Salesforce connection succeeds, `run_test` sends the
create call exactly the literal payload Subject="Test Subject",
Description="This is a test description for the case.", Priority="High";
when the create call succeeds with a record whose `id` is the string `i`,
the test returns normally and logs a message containing `i`; when the
create call raises, `run_test` re-raises that error. -/
theorem run_test_fixed_input_and_outcomes
    (env : Env) (sfCtor : SfCtor) (sf : SfClient)
    (hinit : (init_salesforce env sfCtor).result = .ok sf) :
    (run_test env sfCtor).sfCalls = [testPayload]
    ∧ (∀ r i, sf testPayload = .ok r → r.getOrNone "id" = .ok (.str i) →
        (run_test env sfCtor).result = .ok ()
        ∧ ("Test successful: Created Case ID=" ++ i) ∈ (run_test env sfCtor).log)
    ∧ (∀ e, sf testPayload = .error e →
        (run_test env sfCtor).result = .error e) := by
  refine ⟨?_, ?_, ?_⟩
  · cases hr : sf testPayload with
    | ok r =>
      have hcr := create_salesforce_case_ok sf (.str "Test Subject")
        (.str "This is a test description for the case.") (.str "High") r hr
      cases hg : r.getOrNone "id" with
      | ok v => simp [run_test, hinit, hcr, hg, testPayload]
      | error e => simp [run_test, hinit, hcr, hg, testPayload]
    | error e =>
      have hcr := create_salesforce_case_err sf (.str "Test Subject")
        (.str "This is a test description for the case.") (.str "High") e hr
      simp [run_test, hinit, hcr, testPayload]
  · intro r i hr hid
    have hcr := create_salesforce_case_ok sf (.str "Test Subject")
      (.str "This is a test description for the case.") (.str "High") r hr
    constructor
    · simp [run_test, hinit, hcr, hid]
    · simp [run_test, hinit, hcr, hid, PyVal.render]
  · intro e hr
    have hcr := create_salesforce_case_err sf (.str "Test Subject")
      (.str "This is a test description for the case.") (.str "High") e hr
    simp [run_test, hinit, hcr]

/-- Witness for C8: full credentials, a client answering with
`\x7bid: "5003xyz"\x7d`. -/
theorem run_test_fixed_input_and_outcomes_witness :
    (run_test envFull (ctorRespond respWithId)).sfCalls = [testPayload]
    ∧ (run_test envFull (ctorRespond respWithId)).result = .ok ()
    ∧ ("Test successful: Created Case ID=" ++ "5003xyz")
        ∈ (run_test envFull (ctorRespond respWithId)).log := by
  have h := run_test_fixed_input_and_outcomes envFull (ctorRespond respWithId)
    (sfRespond respWithId) rfl
  exact ⟨h.1, (h.2.1 respWithId "5003xyz" rfl rfl).1,
    (h.2.1 respWithId "5003xyz" rfl rfl).2⟩

end SlackSalesforceCase
